import Mathlib

/-!
Shallow embedding of the deepdive example scripts:

* `src/examples/titles/udf/word_extractor.py` (word/variable extractor),
* `src/examples/tutorial_example/step3-more-data/labeling/compute-recall.py`
  (recall evaluator),
* `src/examples/tutorial_example/step2-generic-features/experiment-reports/
  v00002/code/udf/ext_has_spouse_features.py` (relation feature extractor).

Python strings are modelled as `String` / `List Char`, Python ints as `Int`,
Python floats as `ℚ` (every float occurring in the claims compares the same
way as its exact rational reading), and code that can raise an exception as
`Except PyErr`.  The `ddlib` library used by the relation feature extractor
is not part of the sources; its operations are modelled from the spec and
marked `Modelled from the spec:` in their doc comments.
-/

namespace DeepDive

/-- Python exception kinds reachable in the embedded scripts, together with
the error taxonomy of the spec for the `ddlib` operations modelled from it. -/
inductive PyErr where
  | indexError
  | valueError
  | keyError
  | zeroDivisionError
  | malformedInput
  | spanOutOfRange
  | spanEmpty
deriving DecidableEq

deriving instance DecidableEq for Except

/-! ### Python string primitives (on `List Char`) -/

/-- Python `str.strip()`: drop leading and trailing whitespace. -/
def pyStrip (l : List Char) : List Char :=
  ((l.dropWhile Char.isWhitespace).reverse.dropWhile Char.isWhitespace).reverse

/-- Attach a character to the front of the first chunk of a split result. -/
def consHead (c : Char) : List (List Char) → List (List Char)
  | [] => [[c]]
  | w :: ws => (c :: w) :: ws

/-- Python `str.split(sep)` for a one-character separator `sep`: every
occurrence of `sep` is a cut point, so consecutive, leading or trailing
separators produce empty chunks, and `splitChar sep [] = [[]]`
(as `''.split(sep) == ['']` in Python). -/
def splitChar (sep : Char) : List Char → List (List Char)
  | [] => [[]]
  | c :: cs => if c = sep then [] :: splitChar sep cs else consHead c (splitChar sep cs)

/-- Python `str.split('~^~')`, the array delimiter of the relation feature
extractor: left-to-right, non-overlapping occurrences of `~^~` are cut
points. -/
def splitArr : List Char → List (List Char)
  | [] => [[]]
  | '~' :: '^' :: '~' :: rest => [] :: splitArr rest
  | c :: cs => consHead c (splitArr cs)

/-- Value of a list of decimal digit characters. -/
def digitsToNat (l : List Char) : Nat :=
  l.foldl (fun acc c => acc * 10 + (c.toNat - '0'.toNat)) 0

/-- Python `int(s)` for base 10: optional surrounding whitespace, optional
sign, then one or more decimal digits; anything else raises `ValueError`. -/
def pyInt (s : String) : Except PyErr Int :=
  let cs := pyStrip s.toList
  let signed : Bool × List Char :=
    match cs with
    | '-' :: rest => (true, rest)
    | '+' :: rest => (false, rest)
    | _ => (false, cs)
  if signed.2 ≠ [] ∧ signed.2.all Char.isDigit then
    .ok (if signed.1 then -(digitsToNat signed.2 : Int) else (digitsToNat signed.2 : Int))
  else .error .valueError

/-- Decimal digit characters of `n`, most significant first (fuel-driven so
that the kernel can evaluate it). -/
def natReprAux : Nat → Nat → List Char
  | 0, _ => []
  | fuel + 1, n =>
    if n < 10 then [Nat.digitChar n]
    else natReprAux fuel (n / 10) ++ [Nat.digitChar (n % 10)]

/-- Decimal rendering of a natural number. -/
def natRepr (n : Nat) : String :=
  String.mk (natReprAux (n + 1) n)

/-- Lowercase a string character by character (Python `str.lower()` for the
ASCII data handled here). -/
def lowerS (s : String) : String :=
  String.mk (s.toList.map Char.toLower)

/-! ### Word/variable extractor (`word_extractor.py`)

The script reads one JSON array `[title_id, title, has_entities]` per line;
we embed it after JSON decoding, so a row is a `TitleRow`. -/

/-- One decoded input row of the word extractor. -/
structure TitleRow where
  titleId : Int
  title : Option String
  hasEntities : Bool
deriving DecidableEq

/-- Python `title.split(" ")` lifted to `String`. -/
def pySplitSpace (t : String) : List String :=
  (splitChar ' ' t.toList).map String.mk

/-- Output lines of `word_extractor.py` for one row: for a non-null title,
one pair `(title_id, word)` per member of `set(title.split(" "))`; for a
null title, nothing.  A Python `set` iterates in an unspecified order; we
fix the canonical order produced by `List.dedup`, which keeps exactly one
copy of every element. -/
def wordExtract (r : TitleRow) : List (Int × String) :=
  match r.title with
  | none => []
  | some t => ((pySplitSpace t).dedup).map (fun w => (r.titleId, w))

/-! ### Recall evaluator (`compute-recall.py`)

The script loads `labels` (a JSON object mapping keys to records with an
`is_correct` field — a JSON boolean or null, modelled `Option Bool`) and
builds `rid_exp`, a map from relation id to expectation (modelled as a
partial function `String → Option ℚ`; a `none` lookup is a `KeyError`). -/

/-- The counting loop (lines 18-24 of `compute-recall.py`): returns
`(positive_correct, tot_correct)`.  For each label whose `is_correct`
field equals `True` the expectation map is consulted (`KeyError` if the key
is absent); other labels are skipped entirely. -/
def countCorrect (e : String → Option ℚ) : List (String × Option Bool) → Except PyErr (Nat × Nat)
  | [] => .ok (0, 0)
  | (k, c) :: rest =>
    if c = some true then
      match e k with
      | none => .error .keyError
      | some q =>
        match countCorrect e rest with
        | .error err => .error err
        | .ok (pc, tc) => .ok ((if (9 : ℚ)/10 ≤ q then pc + 1 else pc), tc + 1)
    else countCorrect e rest

/-- One printed line of `compute-recall.py`. -/
inductive RecallOut where
  | labelCount (n : Nat)
  | truePos (n : Nat)
  | falseNeg (n : Nat)
  | recall (q : ℚ)
deriving DecidableEq

/-- Whole-script behaviour of `compute-recall.py` after input decoding: the
lines it prints, in order, and the uncaught exception (if any) that stops
it.  A `KeyError` in the loop happens before anything is printed; with
`tot_correct = 0` the first three lines are printed and the final division
`positive_correct / float(tot_correct)` raises `ZeroDivisionError`. -/
def runRecall (ls : List (String × Option Bool)) (e : String → Option ℚ) :
    List RecallOut × Option PyErr :=
  match countCorrect e ls with
  | .error err => ([], some err)
  | .ok (pc, tc) =>
    if tc = 0 then
      ([.labelCount ls.length, .truePos pc, .falseNeg (tc - pc)], some .zeroDivisionError)
    else
      ([.labelCount ls.length, .truePos pc, .falseNeg (tc - pc), .recall ((pc : ℚ) / (tc : ℚ))],
        none)

/-- Bool test for "expectation present and at least 0.9". -/
def expGE (o : Option ℚ) : Bool :=
  match o with
  | some q => decide ((9 : ℚ)/10 ≤ q)
  | none => false

/-- Bool test for "expectation present and below 0.9". -/
def expLT (o : Option ℚ) : Bool :=
  match o with
  | some q => decide (q < (9 : ℚ)/10)
  | none => false

/-- True-positive count in the words of the spec: labels that are correct
and whose expectation is at least 0.9. -/
def specTruePositives (e : String → Option ℚ) (ls : List (String × Option Bool)) : Nat :=
  ls.countP (fun kv => decide (kv.2 = some true) && expGE (e kv.1))

/-- False-negative count in the words of the spec: labels that are correct
and whose expectation is below 0.9. -/
def specFalseNegatives (e : String → Option ℚ) (ls : List (String × Option Bool)) : Nat :=
  ls.countP (fun kv => decide (kv.2 = some true) && expLT (e kv.1))

/-! ### Relation feature extractor (`ext_has_spouse_features.py`)

The per-token and per-sentence data model and the `ddlib` operations are
modelled from the spec (ddlib is not among the sources); the row parsing,
the `set()` feature accumulation and the per-line loop are embedded from
the source file. -/

/-- Modelled from the spec: the `ddlib` Word value — one token with its
annotations and its 0-based position inside the sentence, plus the two
numeric alignment fields that must round-trip (§3, §4.2). -/
structure DWord where
  beginOffset : Int
  endOffset : Int
  word : String
  lemma_ : String
  pos : String
  dep : String
  ner : String
  position : Nat
deriving DecidableEq

/-- Default token used with `List.getD`. -/
def dWordDefault : DWord :=
  ⟨0, 0, "", "", "", "", "", 0⟩

/-- Modelled from the spec: a span of tokens, `{beginIndex, length}` (§3). -/
structure Span where
  beginIndex : Int
  length : Int
deriving DecidableEq

/-- The dictionary store: named word lists, loaded once at start-up and
read-only afterwards (§4.1, §9). -/
abbrev Store := List (String × List String)

/-- Zip the seven annotation sequences into tokens, positions counted from
`k`; missing entries (never hit on equal-length input) default. -/
def buildWords : Nat → List Int → List Int → List String → List String → List String →
    List String → List String → List DWord
  | _, _, _, [], _, _, _, _ => []
  | k, bs, es, w :: ws, ls, ps, ds, ns =>
    ⟨bs.headD 0, es.headD 0, w, ls.headD (""), ps.headD (""), ds.headD (""), ns.headD (""), k⟩ ::
      buildWords (k + 1) bs.tail es.tail ws ls.tail ps.tail ds.tail ns.tail

/-- Modelled from the spec: `ddlib.get_sentence` — the Sentence Model
Builder (§4.2).  Takes the seven equal-length ordered sequences and builds
the token list; fails with `MalformedInputError` when the lengths
disagree. -/
def get_sentence (bo eo : List Int) (ws ls ps ds ns : List String) :
    Except PyErr (List DWord) :=
  if bo.length = ws.length ∧ eo.length = ws.length ∧ ls.length = ws.length ∧
      ps.length = ws.length ∧ ds.length = ws.length ∧ ns.length = ws.length then
    .ok (buildWords 0 bo eo ws ls ps ds ns)
  else .error .malformedInput

/-- Modelled from the spec: the Span Resolver (§4.3) — validates one
`(beginIndex, length)` pair against the sentence's token count `n`.  Fails
with `SpanEmptyError` when the length is not strictly positive, with
`SpanOutOfRangeError` when the span would leave `[0, n)`; otherwise returns
the span unchanged (no clamping). -/
def resolveSpan (n : Nat) (b l : Int) : Except PyErr Span :=
  if l ≤ 0 then .error .spanEmpty
  else if b < 0 ∨ (n : Int) < b + l then .error .spanOutOfRange
  else .ok ⟨b, l⟩

/-- Tokens covered by a span. -/
def spanTokens (s : List DWord) (sp : Span) : List DWord :=
  (s.drop sp.beginIndex.toNat).take sp.length.toNat

/-- Tokens strictly between two spans: from the smaller span end to the
larger span begin.  This fixed policy also covers overlapping spans, where
the window is empty (§4.4). -/
def betweenTokens (s : List DWord) (a b : Span) : List DWord :=
  let lo := min (a.beginIndex + a.length) (b.beginIndex + b.length)
  let hi := max a.beginIndex b.beginIndex
  (s.drop lo.toNat).take (hi - lo).toNat

/-- Dictionary features (§4.4(a)): one feature per configured dictionary
that contains (lowercased) some token of the tagged window. -/
def dictFeats (store : Store) (tag : String) (toks : List DWord) : List String :=
  store.flatMap (fun d =>
    if toks.any (fun w => d.2.contains (lowerS w.word)) then
      ["IN_DICT_" ++ d.1 ++ "_" ++ tag]
    else [])

/-- Lexical/contextual features (§4.4(b)): words, lemmas and POS tags of
the span tokens and of the tokens immediately next to each span. -/
def lexFeats (s : List DWord) (a b : Span) : List String :=
  let t1 := spanTokens s a
  let t2 := spanTokens s b
  t1.map (fun w => "S1_WORD_" ++ lowerS w.word) ++
    t2.map (fun w => "S2_WORD_" ++ lowerS w.word) ++
    t1.map (fun w => "S1_POS_" ++ w.pos) ++
    t2.map (fun w => "S2_POS_" ++ w.pos) ++
    t1.map (fun w => "S1_LEMMA_" ++ lowerS w.lemma_) ++
    t2.map (fun w => "S2_LEMMA_" ++ lowerS w.lemma_) ++
    ((s.take a.beginIndex.toNat).reverse.take 1).map (fun w => "S1_LEFT_" ++ lowerS w.word) ++
    ((s.drop (a.beginIndex + a.length).toNat).take 1).map (fun w => "S1_RIGHT_" ++ lowerS w.word) ++
    ((s.take b.beginIndex.toNat).reverse.take 1).map (fun w => "S2_LEFT_" ++ lowerS w.word) ++
    ((s.drop (b.beginIndex + b.length).toNat).take 1).map (fun w => "S2_RIGHT_" ++ lowerS w.word)

/-- Structural features (§4.4(c)): linear token distance, intervening
named-entity tags and lemmas, and the dependency labels at the spans. -/
def structFeats (s : List DWord) (a b : Span) : List String :=
  let bet := betweenTokens s a b
  ("WORD_DIST_" ++ natRepr bet.length) ::
    (bet.map (fun w => "BETW_NER_" ++ w.ner) ++
      bet.map (fun w => "BETW_LEMMA_" ++ lowerS w.lemma_) ++
      (spanTokens s a).map (fun w => "S1_DEP_" ++ w.dep) ++
      (spanTokens s b).map (fun w => "S2_DEP_" ++ w.dep))

/-- Modelled from the spec: `ddlib.get_generic_features_relation` — the
Feature Generator (§4.4).  A pure function of the sentence, the two spans
and the dictionary store, producing a deduplicated list of feature
strings. -/
def featuresOf (store : Store) (s : List DWord) (a b : Span) : List String :=
  (dictFeats store ("SPAN1") (spanTokens s a) ++
    dictFeats store ("SPAN2") (spanTokens s b) ++
    dictFeats store ("BETW") (betweenTokens s a b) ++
    lexFeats s a b ++
    structFeats s a b).dedup

/-- One decoded input row of the relation feature extractor
(lines 15-24 of `ext_has_spouse_features.py`). -/
structure ParsedRow where
  words : List String
  lemmas : List String
  poses : List String
  dependencies : List String
  ners : List String
  relationId : String
  p1Start : Int
  p1Length : Int
  p2Start : Int
  p2Length : Int
deriving DecidableEq

/-- Python `s.split('~^~')` lifted to `String`. -/
def splitArrS (s : String) : List String :=
  (splitArr s.toList).map String.mk

/-- `int(x)` over a list of strings, left to right, first failure wins
(the list comprehension of line 24). -/
def mapPyInt : List String → Except PyErr (List Int)
  | [] => .ok []
  | s :: rest =>
    match pyInt s with
    | .error e => .error e
    | .ok n =>
      match mapPyInt rest with
      | .error e => .error e
      | .ok ns => .ok (n :: ns)

/-- Field parsing of one input row (lines 15-24): strip, split on tabs,
index fields 0-5 (`IndexError` when fewer than six fields), convert fields
6.. to int and unpack exactly four of them (`ValueError` otherwise). -/
def parseRow (row : String) : Except PyErr ParsedRow :=
  let parts := (splitChar '\t' (pyStrip row.toList)).map String.mk
  if parts.length < 6 then .error .indexError
  else
    match mapPyInt (parts.drop 6) with
    | .error e => .error e
    | .ok nums =>
      match nums with
      | [a, b, c, d] =>
        .ok
          { words := splitArrS (parts.getD 0 "")
            lemmas := splitArrS (parts.getD 1 "")
            poses := splitArrS (parts.getD 2 "")
            dependencies := splitArrS (parts.getD 3 "")
            ners := splitArrS (parts.getD 4 "")
            relationId := parts.getD 5 ""
            p1Start := a
            p1Length := b
            p2Start := c
            p2Length := d }
      | _ => .error .valueError

/-- Processing of one input line (the body of the `for row in sys.stdin`
loop): parse the fields, build the sentence (with `[0]*len(words)` for the
two alignment arrays, as in the source), resolve both spans, generate the
features, accumulate them in a set and emit one `(relation_id, feature)`
pair per member. -/
def processLine (store : Store) (row : String) : Except PyErr (List (String × String)) :=
  match parseRow row with
  | .error e => .error e
  | .ok r =>
    match get_sentence (List.replicate r.words.length 0) (List.replicate r.words.length 0)
        r.words r.lemmas r.poses r.dependencies r.ners with
    | .error e => .error e
    | .ok s =>
      match resolveSpan s.length r.p1Start r.p1Length with
      | .error e => .error e
      | .ok sp1 =>
        match resolveSpan s.length r.p2Start r.p2Length with
        | .error e => .error e
        | .ok sp2 =>
          .ok (((featuresOf store s sp1 sp2).dedup).map (fun f => (r.relationId, f)))

/-- The stream loop of `ext_has_spouse_features.py`: lines are processed in
order and their output pairs emitted as they are produced; an uncaught
exception stops the whole process, so the outputs of the remaining lines
are never emitted. -/
def runExtractor (store : Store) : List String → List (String × String) × Option PyErr
  | [] => ([], none)
  | l :: rest =>
    match processLine store l with
    | .error e => ([], some e)
    | .ok outs =>
      let r := runExtractor store rest
      (outs ++ r.1, r.2)

/-- One feature-generator invocation: a sentence and two spans. -/
abbrev CallInput := List DWord × Span × Span

/-- Placeholder invocation used with `List.getD`. -/
def dummyCall : CallInput :=
  ([], ⟨0, 0⟩, ⟨0, 0⟩)

/-- A sequence of feature-generator invocations against one fixed store,
run in order (the only state threaded through is the read-only store). -/
def runCalls (store : Store) : List CallInput → List (List String)
  | [] => []
  | c :: rest => featuresOf store c.1 c.2.1 c.2.2 :: runCalls store rest

/-! ### Concrete inputs for witnesses and counterexamples -/

/-- The two dictionaries loaded by `ext_has_spouse_features.py`. -/
def exStore : Store :=
  [("married", ["married"]), ("non_married", ["divorced"])]

/-- One well-formed input line for the relation feature extractor. -/
def exGoodLine : String :=
  "John~^~married~^~Mary\tJohn~^~marry~^~Mary\tNNP~^~VBD~^~NNP\tnsubj~^~root~^~dobj\tPERSON~^~O~^~PERSON\tr1\t0\t1\t2\t1"

/-- A malformed input line: only three tab-separated fields. -/
def exBadLine : String :=
  "only\tthree\tfields"

/-- The output pairs the extractor emits for `exGoodLine`. -/
def exGoodOuts : List (String × String) :=
  (processLine exStore exGoodLine).toOption.getD []

/-- The expectation map of the claim C7 example. -/
def exExp : String → Option ℚ
  | "1" => some ((95 : ℚ)/100)
  | "2" => some ((80 : ℚ)/100)
  | _ => none

/-- The label list of the claim C7 example: two labels, both correct. -/
def exLabels2 : List (String × Option Bool) :=
  [("1", some true), ("2", some true)]

/-- A three-token example sentence. -/
def exSent : List DWord :=
  [⟨0, 0, "John", "John", "NNP", "nsubj", "PERSON", 0⟩,
    ⟨0, 0, "married", "marry", "VBD", "root", "O", 1⟩,
    ⟨0, 0, "Mary", "Mary", "NNP", "dobj", "PERSON", 2⟩]

/-- One concrete feature-generator invocation. -/
def exCall : CallInput :=
  (exSent, ⟨0, 1⟩, ⟨2, 1⟩)

/-! ### Helper lemmas -/

theorem consHead_ne_nil (c : Char) (l : List (List Char)) : consHead c l ≠ [] := by
  cases l <;> simp [consHead]

theorem splitChar_ne_nil (sep : Char) (l : List Char) : splitChar sep l ≠ [] := by
  cases l with
  | nil => simp [splitChar]
  | cons c cs =>
    simp only [splitChar]
    split
    · simp
    · exact consHead_ne_nil c (splitChar sep cs)

theorem consHead_append (c : Char) {A : List (List Char)} (B : List (List Char)) (hA : A ≠ []) :
    consHead c (A ++ B) = consHead c A ++ B := by
  cases A with
  | nil => exact absurd rfl hA
  | cons w ws => rfl

/-- Splitting on a one-character separator distributes over an occurrence of
the separator. -/
theorem splitChar_append (sep : Char) (xs ys : List Char) :
    splitChar sep (xs ++ sep :: ys) = splitChar sep xs ++ splitChar sep ys := by
  induction xs with
  | nil => simp [splitChar]
  | cons c cs ih =>
    by_cases h : c = sep
    · subst h
      simp [splitChar, ih]
    · show splitChar sep (c :: (cs ++ sep :: ys)) = _
      simp only [splitChar, if_neg h]
      rw [ih]
      exact consHead_append c (splitChar sep ys) (splitChar_ne_nil sep cs)

/-- A chunk list with no separator at all is a single chunk. -/
theorem splitChar_of_no_sep (sep : Char) (t : List Char) (h : ∀ c ∈ t, c ≠ sep) :
    splitChar sep t = [t] := by
  induction t with
  | nil => rfl
  | cons c cs ih =>
    have hc : c ≠ sep := h c (List.mem_cons_self c cs)
    simp only [splitChar, if_neg hc, ih (fun x hx => h x (List.mem_cons_of_mem c hx))]
    rfl

theorem countCorrect_of_no_true (e : String → Option ℚ) (ls : List (String × Option Bool))
    (h : ∀ kc ∈ ls, kc.2 ≠ some true) : countCorrect e ls = .ok (0, 0) := by
  induction ls with
  | nil => rfl
  | cons kc rest ih =>
    obtain ⟨k, c⟩ := kc
    have hc : ¬ (c = some true) := by simpa using h (k, c) (List.mem_cons_self (k, c) rest)
    simp only [countCorrect, if_neg hc]
    exact ih (fun x hx => h x (List.mem_cons_of_mem (k, c) hx))

/-! ### Claim C1 -/

/-- Claim C1 counterexample: the stream `[exBadLine, exGoodLine]`, whose
first line has only three tab-separated fields, produces no output at all —
while the well-formed `exGoodLine` alone does produce output.  So a
malformed record does abort and alter the processing of subsequent
well-formed lines. -/
theorem c1_counterexample :
    runExtractor exStore [exBadLine, exGoodLine] = ([], some PyErr.indexError) ∧
    (runExtractor exStore [exGoodLine]).1 ≠ [] :=
  ⟨by decide, by decide⟩

/-- Claim C1, amended: a record that fails field parsing or validation
raises an uncaught exception that aborts the whole extractor run: no output
pair is emitted for it or for any later line, well-formed or not. -/
theorem c1_malformed_input_aborts_stream (store : Store) (row : String) (rest : List String)
    (e : PyErr) (h : processLine store row = .error e) :
    runExtractor store (row :: rest) = ([], some e) := by
  simp [runExtractor, h]

/-- Claim C1 witness: the amended theorem applied to the malformed line. -/
theorem c1_witness :
    runExtractor exStore [exBadLine] = ([], some PyErr.indexError) :=
  c1_malformed_input_aborts_stream exStore exBadLine [] PyErr.indexError (by decide)

/-! ### Claim C2 -/

/-- Claim C2 counterexample: with two labels, neither of them correct, the
evaluator prints the three counts and then stops with a `ZeroDivisionError`
— it does not output `recall = 0`. -/
theorem c2_counterexample :
    runRecall [("a", some false), ("b", none)] (fun _ => none) =
      ([.labelCount 2, .truePos 0, .falseNeg 0], some PyErr.zeroDivisionError) := by
  decide

/-- Claim C2, amended: when the number of labels with `is_correct = True`
is zero, the evaluator prints the label, true-positive and false-negative
counts and then fails with a division-by-zero error at the recall
computation; no recall value is output. -/
theorem c2_zero_correct_divides_by_zero (ls : List (String × Option Bool))
    (e : String → Option ℚ) (h : ∀ kc ∈ ls, kc.2 ≠ some true) :
    runRecall ls e =
      ([.labelCount ls.length, .truePos 0, .falseNeg 0], some PyErr.zeroDivisionError) := by
  simp [runRecall, countCorrect_of_no_true e ls h]

/-- Claim C2 witness: the amended theorem applied to one incorrect label. -/
theorem c2_witness :
    runRecall [("x", some false)] (fun _ => none) =
      ([.labelCount 1, .truePos 0, .falseNeg 0], some PyErr.zeroDivisionError) :=
  c2_zero_correct_divides_by_zero [("x", some false)] (fun _ => none) (by decide)

/-! ### Claim C3 -/

/-- Claim C3: span resolution fails with `SpanEmptyError` whenever the
length is not strictly positive, fails with `SpanOutOfRangeError` whenever
a positive-length span would exceed the sentence's token count, and for
in-range positive-length inputs succeeds with the span unchanged (no
clamping). -/
theorem c3_span_resolution (n : Nat) (b l : Int) :
    (l ≤ 0 → resolveSpan n b l = .error PyErr.spanEmpty) ∧
    (0 < l → (n : Int) < b + l → resolveSpan n b l = .error PyErr.spanOutOfRange) ∧
    (0 ≤ b → 0 < l → b + l ≤ (n : Int) → resolveSpan n b l = .ok ⟨b, l⟩) := by
  refine ⟨fun h => ?_, fun h1 h2 => ?_, fun h1 h2 h3 => ?_⟩
  · unfold resolveSpan
    rw [if_pos h]
  · unfold resolveSpan
    rw [if_neg (by omega), if_pos (Or.inr h2)]
  · unfold resolveSpan
    rw [if_neg (by omega), if_neg (by omega)]

/-- Claim C3 witness: the three cases at concrete inputs over a three-token
sentence. -/
theorem c3_witness :
    resolveSpan 3 1 0 = .error PyErr.spanEmpty ∧
    resolveSpan 3 2 2 = .error PyErr.spanOutOfRange ∧
    resolveSpan 3 1 2 = .ok ⟨1, 2⟩ :=
  ⟨(c3_span_resolution 3 1 0).1 (by decide),
    (c3_span_resolution 3 2 2).2.1 (by decide) (by decide),
    (c3_span_resolution 3 1 2).2.2 (by decide) (by decide) (by decide)⟩

/-! ### Claim C5 -/

/-- Claim C5: for every record the extractor processes successfully, no
`(relation_id, feature)` output pair appears more than once — the feature
set deduplicates whatever the generation rules produce. -/
theorem c5_no_duplicate_features (store : Store) (row : String) (outs : List (String × String))
    (h : processLine store row = .ok outs) : outs.Nodup := by
  unfold processLine at h
  split at h
  · exact absurd h (by simp)
  · split at h
    · exact absurd h (by simp)
    · split at h
      · exact absurd h (by simp)
      · split at h
        · exact absurd h (by simp)
        · rw [Except.ok.injEq] at h
          subst h
          exact (List.nodup_dedup _).map (fun a b hab => by simpa using hab)

/-- Claim C5 witness: the outputs of the concrete well-formed line have no
duplicates. -/
theorem c5_witness : exGoodOuts.Nodup :=
  c5_no_duplicate_features exStore exGoodLine exGoodOuts (by decide)

/-! ### Claim C4 -/

theorem runCalls_getD (store : Store) (ins : List CallInput) (i : Nat) (hi : i < ins.length) :
    (runCalls store ins).getD i [] =
      featuresOf store (ins.getD i dummyCall).1 (ins.getD i dummyCall).2.1
        (ins.getD i dummyCall).2.2 := by
  induction ins generalizing i with
  | nil => simp at hi
  | cons c rest ih =>
    cases i with
    | zero => rfl
    | succ n =>
      simp only [runCalls, List.getD_cons_succ]
      exact ih n (by simpa using hi)

/-- Claim C4: feature generation is pure and deterministic — in a sequence
of generator invocations against one fixed dictionary store, any two
invocations with identical inputs produce identical feature sets, whatever
their positions in the sequence and whatever calls precede them. -/
theorem c4_feature_generation_deterministic (store : Store) (ins : List CallInput)
    (i j : Nat) (hi : i < ins.length) (hj : j < ins.length)
    (h : ins.getD i dummyCall = ins.getD j dummyCall) :
    (runCalls store ins).getD i [] = (runCalls store ins).getD j [] := by
  rw [runCalls_getD store ins i hi, runCalls_getD store ins j hj, h]

/-- Claim C4 witness: a call sequence containing the same invocation twice
produces the same feature set at both positions. -/
theorem c4_witness :
    (runCalls exStore [exCall, exCall]).getD 0 [] =
      (runCalls exStore [exCall, exCall]).getD 1 [] :=
  c4_feature_generation_deterministic exStore [exCall, exCall] 0 1 (by decide) (by decide) rfl

/-! ### Claim C8 -/

/-- Claim C8 counterexample: for the input row `[2, "a\tb", true]` the
title's whitespace-delimited words are `a` and `b`, but the extractor does
not emit the line `[2, "a"]` — it emits `[2, "a\tb"]`, whose word contains
whitespace, because only the single space character separates words. -/
theorem c8_counterexample :
    ((2 : Int), "a") ∉ wordExtract ⟨2, some "a\tb", true⟩ ∧
    ((2 : Int), "a\tb") ∈ wordExtract ⟨2, some "a\tb", true⟩ :=
  ⟨by decide, by decide⟩

/-- Claim C8, amended: for a non-null title the extractor emits exactly one
line `[titleId, w]` per distinct member `w` of the title split on the
single space character (members may be empty strings or contain other
whitespace); for a null title it emits nothing. -/
theorem c8_word_extractor_output (tid : Int) (t : String) (ents : Bool) :
    (∀ w : String, ((tid, w) ∈ wordExtract ⟨tid, some t, ents⟩ ↔ w ∈ pySplitSpace t)) ∧
    (wordExtract ⟨tid, some t, ents⟩).Nodup ∧
    wordExtract ⟨tid, none, ents⟩ = [] ∧
    ∀ p, p ∈ wordExtract ⟨tid, some t, ents⟩ → p.1 = tid := by
  refine ⟨fun w => ?_, ?_, rfl, fun p hp => ?_⟩
  · simp [wordExtract, List.mem_dedup]
  · exact (List.nodup_dedup _).map (fun a b hab => by simpa using hab)
  · rcases List.mem_map.mp hp with ⟨a, _, rfl⟩
    rfl

/-- Claim C8 witness: the amended theorem at the spec's own example, the
title `The Quick Fox`. -/
theorem c8_witness :
    (((1 : Int), "The") ∈ wordExtract ⟨1, some "The Quick Fox", true⟩) ∧
    (wordExtract ⟨1, some "The Quick Fox", true⟩).Nodup :=
  ⟨((c8_word_extractor_output 1 ("The Quick Fox") true).1 ("The")).mpr (by decide),
    (c8_word_extractor_output 1 ("The Quick Fox") true).2.1⟩

/-! ### Claim C9 -/

/-- Claim C9: the extractor splits the title on the single space character
only — a title with a leading, trailing or doubled space yields an
empty-string chunk and the extractor emits `[titleId, ""]` for it, while a
title whose characters contain no space at all (tabs included) is kept as
one single word. -/
theorem c9_single_space_split (tid : Int) (ents : Bool) (t : List Char) :
    (((∃ ys, t = ' ' :: ys) ∨ (∃ xs, t = xs ++ [' ']) ∨ ∃ xs ys, t = xs ++ ' ' :: ' ' :: ys) →
      (tid, "") ∈ wordExtract ⟨tid, some (String.mk t), ents⟩) ∧
    ((∀ c ∈ t, c ≠ ' ') → splitChar ' ' t = [t]) := by
  constructor
  · intro h
    have hmem : [] ∈ splitChar ' ' t := by
      rcases h with ⟨ys, rfl⟩ | ⟨xs, rfl⟩ | ⟨xs, ys, rfl⟩
      · simp [splitChar]
      · rw [show xs ++ [' '] = xs ++ ' ' :: [] from rfl, splitChar_append]
        simp [splitChar]
      · rw [splitChar_append]
        simp [splitChar]
    refine List.mem_map.mpr ⟨"", ?_, rfl⟩
    rw [List.mem_dedup]
    exact List.mem_map.mpr ⟨[], hmem, rfl⟩
  · exact splitChar_of_no_sep ' ' t

/-- Claim C9 witness: a leading space produces the output line with the
empty-string word, and a space-free title with a tab stays unsplit. -/
theorem c9_witness :
    (((5 : Int), "") ∈ wordExtract ⟨5, some (String.mk [' ', 'a']), true⟩) ∧
    splitChar ' ' ['a', '\t', 'b'] = [['a', '\t', 'b']] :=
  ⟨(c9_single_space_split 5 true [' ', 'a']).1 (Or.inl ⟨['a'], rfl⟩),
    (c9_single_space_split 5 true ['a', '\t', 'b']).2 (by decide)⟩

/-! ### Claim C6 -/

theorem headD_eq_getD {α : Type} (l : List α) (d : α) : l.headD d = l.getD 0 d := by
  cases l <;> rfl

theorem tail_getD {α : Type} (l : List α) (i : Nat) (d : α) :
    l.tail.getD i d = l.getD (i + 1) d := by
  cases l <;> rfl

theorem buildWords_length (ws : List String) :
    ∀ (k : Nat) (bs es : List Int) (ls ps ds ns : List String),
      (buildWords k bs es ws ls ps ds ns).length = ws.length := by
  induction ws with
  | nil => intro k bs es ls ps ds ns; rfl
  | cons w ws ih =>
    intro k bs es ls ps ds ns
    simp only [buildWords, List.length_cons, ih]

theorem buildWords_getD (ws : List String) :
    ∀ (i k : Nat) (bs es : List Int) (ls ps ds ns : List String), i < ws.length →
      (buildWords k bs es ws ls ps ds ns).getD i dWordDefault =
        ⟨bs.getD i 0, es.getD i 0, ws.getD i (""), ls.getD i (""), ps.getD i (""),
          ds.getD i (""), ns.getD i (""), k + i⟩ := by
  induction ws with
  | nil => intro i k bs es ls ps ds ns h; simp at h
  | cons w ws ih =>
    intro i k bs es ls ps ds ns h
    cases i with
    | zero =>
      simp only [buildWords, List.getD_cons_zero]
      rw [headD_eq_getD, headD_eq_getD, headD_eq_getD, headD_eq_getD, headD_eq_getD,
        headD_eq_getD]
      rfl
    | succ n =>
      simp only [buildWords, List.getD_cons_succ]
      rw [ih n (k + 1) bs.tail es.tail ls.tail ps.tail ds.tail ns.tail (by simpa using h)]
      rw [tail_getD, tail_getD, tail_getD, tail_getD, tail_getD, tail_getD]
      simp only [DWord.mk.injEq, true_and, and_true]
      omega

/-- Claim C6: sentence construction succeeds on equal-length annotation
sequences, producing exactly one token per position whose fields are the
corresponding positional entries of the inputs, and fails with
`MalformedInputError` whenever the sequence lengths disagree. -/
theorem c6_sentence_construction (bo eo : List Int) (ws ls ps ds ns : List String) :
    ((bo.length = ws.length ∧ eo.length = ws.length ∧ ls.length = ws.length ∧
        ps.length = ws.length ∧ ds.length = ws.length ∧ ns.length = ws.length) →
      get_sentence bo eo ws ls ps ds ns = .ok (buildWords 0 bo eo ws ls ps ds ns) ∧
      (buildWords 0 bo eo ws ls ps ds ns).length = ws.length ∧
      ∀ i, i < ws.length →
        ((buildWords 0 bo eo ws ls ps ds ns).getD i dWordDefault).word = ws.getD i ("") ∧
        ((buildWords 0 bo eo ws ls ps ds ns).getD i dWordDefault).lemma_ = ls.getD i ("") ∧
        ((buildWords 0 bo eo ws ls ps ds ns).getD i dWordDefault).pos = ps.getD i ("") ∧
        ((buildWords 0 bo eo ws ls ps ds ns).getD i dWordDefault).dep = ds.getD i ("") ∧
        ((buildWords 0 bo eo ws ls ps ds ns).getD i dWordDefault).ner = ns.getD i ("") ∧
        ((buildWords 0 bo eo ws ls ps ds ns).getD i dWordDefault).position = i) ∧
    (¬ (bo.length = ws.length ∧ eo.length = ws.length ∧ ls.length = ws.length ∧
        ps.length = ws.length ∧ ds.length = ws.length ∧ ns.length = ws.length) →
      get_sentence bo eo ws ls ps ds ns = .error PyErr.malformedInput) := by
  constructor
  · intro h
    refine ⟨?_, buildWords_length ws 0 bo eo ls ps ds ns, fun i hi => ?_⟩
    · unfold get_sentence
      rw [if_pos h]
    · rw [buildWords_getD ws i 0 bo eo ls ps ds ns hi]
      simp
  · intro h
    unfold get_sentence
    rw [if_neg h]

/-- Claim C6 witness: the three-token example sentence round-trips, and a
length mismatch is rejected. -/
theorem c6_witness :
    get_sentence [0, 0, 0] [0, 0, 0] ["John", "married", "Mary"] ["John", "marry", "Mary"]
        ["NNP", "VBD", "NNP"] ["nsubj", "root", "dobj"] ["PERSON", "O", "PERSON"] =
      .ok (buildWords 0 [0, 0, 0] [0, 0, 0] ["John", "married", "Mary"]
        ["John", "marry", "Mary"] ["NNP", "VBD", "NNP"] ["nsubj", "root", "dobj"]
        ["PERSON", "O", "PERSON"]) ∧
    ((buildWords 0 [0, 0, 0] [0, 0, 0] ["John", "married", "Mary"] ["John", "marry", "Mary"]
        ["NNP", "VBD", "NNP"] ["nsubj", "root", "dobj"]
        ["PERSON", "O", "PERSON"]).getD 1 dWordDefault).word = "married" ∧
    ((buildWords 0 [0, 0, 0] [0, 0, 0] ["John", "married", "Mary"] ["John", "marry", "Mary"]
        ["NNP", "VBD", "NNP"] ["nsubj", "root", "dobj"]
        ["PERSON", "O", "PERSON"]).getD 1 dWordDefault).position = 1 ∧
    get_sentence [0, 0] [0] ["John", "married", "Mary"] ["John", "marry", "Mary"]
        ["NNP", "VBD", "NNP"] ["nsubj", "root", "dobj"] ["PERSON", "O", "PERSON"] =
      .error PyErr.malformedInput := by
  have h := (c6_sentence_construction [0, 0, 0] [0, 0, 0] ["John", "married", "Mary"]
    ["John", "marry", "Mary"] ["NNP", "VBD", "NNP"] ["nsubj", "root", "dobj"]
    ["PERSON", "O", "PERSON"]).1 (by decide)
  have hm := (c6_sentence_construction [0, 0] [0] ["John", "married", "Mary"]
    ["John", "marry", "Mary"] ["NNP", "VBD", "NNP"] ["nsubj", "root", "dobj"]
    ["PERSON", "O", "PERSON"]).2 (by decide)
  exact ⟨h.1, (h.2.2 1 (by decide)).1, (h.2.2 1 (by decide)).2.2.2.2.2, hm⟩

/-! ### Claim C7 -/

theorem specTruePositives_cons (e : String → Option ℚ) (k : String) (c : Option Bool)
    (rest : List (String × Option Bool)) :
    specTruePositives e ((k, c) :: rest) =
      specTruePositives e rest + (if decide (c = some true) && expGE (e k) then 1 else 0) :=
  List.countP_cons _ _ _

theorem specFalseNegatives_cons (e : String → Option ℚ) (k : String) (c : Option Bool)
    (rest : List (String × Option Bool)) :
    specFalseNegatives e ((k, c) :: rest) =
      specFalseNegatives e rest + (if decide (c = some true) && expLT (e k) then 1 else 0) :=
  List.countP_cons _ _ _

theorem countCorrect_counts (e : String → Option ℚ) (ls : List (String × Option Bool)) :
    ∀ pc tc : Nat, countCorrect e ls = .ok (pc, tc) →
      pc = specTruePositives e ls ∧ tc = specTruePositives e ls + specFalseNegatives e ls := by
  induction ls with
  | nil =>
    intro pc tc h
    simp only [countCorrect, Except.ok.injEq, Prod.mk.injEq] at h
    obtain ⟨rfl, rfl⟩ := h
    simp [specTruePositives, specFalseNegatives]
  | cons kc rest ih =>
    obtain ⟨k, c⟩ := kc
    intro pc tc h
    by_cases hc : c = some true
    · simp only [countCorrect, if_pos hc] at h
      cases he : e k with
      | none =>
        rw [he] at h
        exact absurd h (by simp)
      | some q =>
        rw [he] at h
        cases hr : countCorrect e rest with
        | error err =>
          rw [hr] at h
          exact absurd h (by simp)
        | ok p =>
          obtain ⟨pc', tc'⟩ := p
          rw [hr] at h
          simp only [Except.ok.injEq, Prod.mk.injEq] at h
          obtain ⟨hpc, htc⟩ := h
          obtain ⟨h1, h2⟩ := ih pc' tc' hr
          subst hpc
          subst htc
          subst hc
          rw [specTruePositives_cons, specFalseNegatives_cons, he]
          by_cases hq : (9 : ℚ)/10 ≤ q
          · have hlt : ¬ (q < (9 : ℚ)/10) := not_lt.mpr hq
            simp [expGE, expLT, hq, hlt]
            omega
          · have hlt : q < (9 : ℚ)/10 := not_le.mp hq
            simp [expGE, expLT, hq, hlt]
            omega
    · simp only [countCorrect, if_neg hc] at h
      obtain ⟨h1, h2⟩ := ih pc tc h
      rw [specTruePositives_cons, specFalseNegatives_cons]
      simp [hc]
      omega

/-- Claim C7: over the joined label and expectation records the evaluator
counts true positives = labels correct with expectation at least 0.9,
false negatives = labels correct with expectation below 0.9, and (when any
label is correct) prints recall = truePositives / (truePositives +
falseNegatives). -/
theorem c7_recall_computation (ls : List (String × Option Bool)) (e : String → Option ℚ)
    (pc tc : Nat) (h : countCorrect e ls = .ok (pc, tc)) :
    pc = specTruePositives e ls ∧
    tc - pc = specFalseNegatives e ls ∧
    (tc ≠ 0 →
      runRecall ls e =
        ([.labelCount ls.length, .truePos (specTruePositives e ls),
          .falseNeg (specFalseNegatives e ls),
          .recall ((specTruePositives e ls : ℚ) /
            ((specTruePositives e ls : ℚ) + (specFalseNegatives e ls : ℚ)))], none)) := by
  obtain ⟨h1, h2⟩ := countCorrect_counts e ls pc tc h
  refine ⟨h1, by omega, fun htc => ?_⟩
  unfold runRecall
  rw [h]
  dsimp only
  rw [if_neg htc]
  rw [h1, h2]
  simp only [Nat.add_sub_cancel_left]
  push_cast
  rfl

/-- Claim C7 witness: the spec's example — two correct labels with
expectations 0.95 and 0.80 give one true positive, one false negative and
recall one half. -/
theorem c7_witness :
    countCorrect exExp exLabels2 = .ok (1, 2) ∧
    (1 = specTruePositives exExp exLabels2 ∧
      2 - 1 = specFalseNegatives exExp exLabels2 ∧
      (2 ≠ 0 →
        runRecall exLabels2 exExp =
          ([.labelCount 2, .truePos (specTruePositives exExp exLabels2),
            .falseNeg (specFalseNegatives exExp exLabels2),
            .recall ((specTruePositives exExp exLabels2 : ℚ) /
              ((specTruePositives exExp exLabels2 : ℚ) +
                (specFalseNegatives exExp exLabels2 : ℚ)))], none))) := by
  have h : countCorrect exExp exLabels2 = .ok (1, 2) := by
    norm_num [countCorrect, exLabels2, exExp]
  exact ⟨h, c7_recall_computation exLabels2 exExp 1 2 h⟩

/-! ### Claim C10 -/

/-- Claim C10: the evaluator consults the expectation table only for labels
whose `is_correct` field is exactly `True` — a label entry with any other
value is transparent to the counting loop (so a missing expectation for it
never raises), contributes to neither the true-positive nor the
false-negative count, yet is counted in the printed total label line. -/
theorem c10_expectation_lookup_only_for_correct (e : String → Option ℚ) (k : String)
    (c : Option Bool) (pre post : List (String × Option Bool)) (hc : c ≠ some true) :
    countCorrect e (pre ++ (k, c) :: post) = countCorrect e (pre ++ post) ∧
    ∀ pc tc, countCorrect e (pre ++ (k, c) :: post) = .ok (pc, tc) →
      (runRecall (pre ++ (k, c) :: post) e).1.head? =
        some (.labelCount (pre.length + post.length + 1)) := by
  have key : countCorrect e (pre ++ (k, c) :: post) = countCorrect e (pre ++ post) := by
    induction pre with
    | nil => simp only [List.nil_append, countCorrect, if_neg hc]
    | cons kc rest ih =>
      obtain ⟨k0, c0⟩ := kc
      by_cases h0 : c0 = some true
      · cases he : e k0 with
        | none => simp [countCorrect, h0, he]
        | some q => simp [countCorrect, h0, he, ih]
      · simp [countCorrect, h0, ih]
  refine ⟨key, fun pc tc h => ?_⟩
  unfold runRecall
  rw [h]
  dsimp only
  split
  · simp [List.length_append, Nat.add_assoc]
  · simp [List.length_append, Nat.add_assoc]

/-- Claim C10 witness: inserting a label with `is_correct = False` between
others changes no count even though the expectation map is empty, and the
total label line still counts it. -/
theorem c10_witness :
    countCorrect (fun _ => none) ([("x", some false)] ++ ("k", some false) :: []) =
      countCorrect (fun _ => none) ([("x", some false)] ++ []) ∧
    (runRecall ([("x", some false)] ++ ("k", some false) :: []) (fun _ => none)).1.head? =
      some (.labelCount 2) := by
  obtain ⟨h1, h2⟩ := c10_expectation_lookup_only_for_correct (fun _ => none) ("k")
    (some false) [("x", some false)] [] (by decide)
  exact ⟨h1, h2 0 0 (by decide)⟩

end DeepDive
